import Mathlib

/-!
Verification of the statistics engine of the `data-learning-lab` A/B-testing
repository (`ab-test/src/stats/utils.ts`, `ab-test/src/stats/naiveAB.ts`,
`ab-test/src/stats/did.ts` and the CUPED module, with the data model from
`ab-test/src/simulation/types.ts`).

Modelling conventions:
* TypeScript numbers are modelled as `ℚ` wherever the source computation is
  exact rational arithmetic (counters, rates, means, variances, estimates,
  theta), and as `ℝ` where the source applies `Math.sqrt` / `Math.exp`
  (standard errors, p-values, confidence intervals).
* Where the source divides after an explicit guard, the guard is reproduced.
  Where the source divides unguarded (running on IEEE floats, where `x / 0`
  is `Infinity`/`NaN`, never an exception), the Lean convention `x / 0 = 0`
  applies; no theorem below reads a field produced by an unguarded division
  at an input that triggers it, except where explicitly noted.
* Boolean result fields (`significant`, `imbalanceDetected`, `isParallel`)
  are modelled as `Bool` via `decide`.
-/

namespace DataLearningLab

open Classical

/-- The two experiment arms (`'control' | 'treatment'` in `types.ts`). -/
inductive Group where
  | control
  | treatment
deriving DecidableEq, BEq, Repr

/-- The two experiment periods (`'pre' | 'post'`). -/
inductive Period where
  | pre
  | post
deriving DecidableEq, BEq, Repr

/-- The metric kinds of `types.ts` (`MetricType`). -/
inductive MetricType where
  | ctr
  | conversion
  | revenue
  | duration
deriving DecidableEq, BEq, Repr

/-- The part of `MetricConfig` consumed by the statistics code.  Of the
configuration record in `types.ts` only `isContinuous` is ever read by the
estimators; the remaining fields (names, i18n keys, UI ranges, `statTest`
label) are presentation data and are omitted. -/
structure MetricConfig where
  isContinuous : Bool
deriving DecidableEq, Repr

/-- `METRIC_CONFIGS` from `types.ts`, restricted to the consumed field:
`ctr` and `conversion` are proportion metrics, `revenue` and `duration`
are continuous. -/
def METRIC_CONFIGS : MetricType → MetricConfig
  | .ctr => ⟨false⟩
  | .conversion => ⟨false⟩
  | .revenue => ⟨true⟩
  | .duration => ⟨true⟩

/-- The `User` record of `types.ts`.  `baselineCTR` and `trafficIntensity`
are never read by the statistics code and are omitted. -/
structure User where
  id : String
  group : Group
  preClicks : ℚ
  preImpressions : ℚ
  postClicks : ℚ
  postImpressions : ℚ
  preMetricSum : ℚ
  postMetricSum : ℚ
  preMetricCount : ℚ
  postMetricCount : ℚ
deriving DecidableEq, Repr

/-- `GroupMetrics` from `types.ts`: one group×period summary. -/
structure GroupMetrics where
  impressions : ℚ
  clicks : ℚ
  ctr : ℚ
  metricSum : ℚ
  metricCount : ℚ
  metricMean : ℚ
deriving DecidableEq, Repr

/-- The `{ pre, post }` pair of summaries of one arm. -/
structure GroupPeriods where
  pre : GroupMetrics
  post : GroupMetrics
deriving DecidableEq, Repr

/-- `AggregatedMetrics` from `types.ts`. -/
structure AggregatedMetrics where
  control : GroupPeriods
  treatment : GroupPeriods
deriving DecidableEq, Repr

/-- `StatResult` from `types.ts`.  The estimate is exact rational data in
the source computation; standard error, confidence interval and p-value
involve `Math.sqrt`/`Math.exp` and live in `ℝ`. -/
structure StatResult where
  estimate : ℚ
  standardError : ℝ
  confidenceInterval : ℝ × ℝ
  pValue : ℝ
  significant : Bool

/-- `CupedResult` from `types.ts` (a `StatResult` plus CUPED extras). -/
structure CupedResult where
  estimate : ℚ
  standardError : ℝ
  confidenceInterval : ℝ × ℝ
  pValue : ℝ
  significant : Bool
  theta : ℚ
  varianceReduction : ℚ
  varianceBefore : ℚ
  varianceAfter : ℚ

/-- `DidResult` from `types.ts` (a `StatResult` plus the four period means
and the two deltas). -/
structure DidResult where
  estimate : ℚ
  standardError : ℝ
  confidenceInterval : ℝ × ℝ
  pValue : ℝ
  significant : Bool
  treatPre : ℚ
  treatPost : ℚ
  ctrlPre : ℚ
  ctrlPost : ℚ
  treatDelta : ℚ
  ctrlDelta : ℚ

/-! ## Numeric primitives (`stats/utils.ts`) -/

/-- `mean` from `utils.ts`: 0 on the empty array, else sum / length. -/
def mean (arr : List ℚ) : ℚ :=
  if arr.length = 0 then 0 else arr.sum / arr.length

/-- `variance` from `utils.ts`: Bessel-corrected sample variance, 0 for
fewer than two elements. -/
def variance (arr : List ℚ) : ℚ :=
  if arr.length < 2 then 0
  else (arr.map (fun x => (x - mean arr) ^ 2)).sum / ((arr.length : ℚ) - 1)

/-- `covariance` from `utils.ts`: sample covariance with `n - 1`
denominator, 0 when the lengths differ or there are fewer than two
elements.  The source's index loop over `x[i], y[i]` is the `zipWith`. -/
def covariance (x y : List ℚ) : ℚ :=
  if x.length ≠ y.length ∨ x.length < 2 then 0
  else (List.zipWith (fun a b => (a - mean x) * (b - mean y)) x y).sum
        / ((x.length : ℚ) - 1)

/-- `proportionSE` from `utils.ts`: `sqrt(p(1-p)/n)`, 0 when `n = 0`. -/
noncomputable def proportionSE (p n : ℚ) : ℝ :=
  if n = 0 then 0 else Real.sqrt ((p * (1 - p) / n : ℚ) : ℝ)

/-- `diffProportionSE` from `utils.ts`: root-sum-of-squares of the two
arms' proportion standard errors. -/
noncomputable def diffProportionSE (p1 n1 p2 n2 : ℚ) : ℝ :=
  Real.sqrt (proportionSE p1 n1 ^ 2 + proportionSE p2 n2 ^ 2)

/-- `zScore` from `utils.ts`: `value / se`, 0 when `se = 0`. -/
noncomputable def zScore (value se : ℝ) : ℝ :=
  if se = 0 then 0 else value / se

/-- `pValueFromZ` from `utils.ts`: two-tailed p-value from a z-score via
the Abramowitz–Stegun rational approximation of the normal CDF. -/
noncomputable def pValueFromZ (z : ℝ) : ℝ :=
  let a1 : ℝ := 0.254829592
  let a2 : ℝ := -0.284496736
  let a3 : ℝ := 1.421413741
  let a4 : ℝ := -1.453152027
  let a5 : ℝ := 1.061405429
  let p : ℝ := 0.3275911
  let absZ := |z|
  let t := 1.0 / (1.0 + p * absZ)
  let y := 1.0 -
    (((((a5 * t + a4) * t) + a3) * t + a2) * t + a1) * t *
      Real.exp (-absZ * absZ / 2)
  2 * (1 - y)

/-- `confidenceInterval` from `utils.ts`: `estimate ± z·se` with `z` looked
up in the fixed table `{0.90 ↦ 1.645, 0.95 ↦ 1.96, 0.99 ↦ 2.576}` and a
1.96 fallback (`zTable[confidence] || 1.96`).  The TS parameter defaults to
0.95; every caller in the estimators uses the default, written explicitly
at the call sites below. -/
noncomputable def confidenceInterval (estimate se confidence : ℝ) : ℝ × ℝ :=
  let z : ℝ :=
    if confidence = 0.90 then 1.645
    else if confidence = 0.95 then 1.96
    else if confidence = 0.99 then 2.576
    else 1.96
  (estimate - z * se, estimate + z * se)

/-- The chi-squared statistic computed inline by `srmCheck` in `utils.ts`:
one-degree-of-freedom statistic of the two counts against the expected
50/50 split. -/
def srmChiSquared (nControl nTreatment : ℚ) : ℚ :=
  let total := nControl + nTreatment
  let expected := total / 2
  (nControl - expected) ^ 2 / expected + (nTreatment - expected) ^ 2 / expected

/-- `srmCheck` from `utils.ts`: returns 1 when the total is 0, else the
approximate p-value `exp(-chiSquared/2)`. -/
noncomputable def srmCheck (nControl nTreatment : ℚ) : ℝ :=
  let total := nControl + nTreatment
  if total = 0 then 1
  else Real.exp (-((srmChiSquared nControl nTreatment : ℚ) : ℝ) / 2)

/-! ## Numeric primitives missing from `src/`

`naiveAB.ts` imports `diffMeanSE`, `welchDF`, `tScore`, `pValueFromT` and
`confidenceIntervalT` from `./utils`, but the copy of `utils.ts` in the
repository snapshot does not contain them (it is the earlier, CTR-only
variant's file).  They are modelled from the spec (§4.1). -/

/-- Modelled from the spec: `diffMeanSE`, absent from `src/` (only its
caller `naiveAB.ts` is present).  §4.1: "Standard error of a difference of
two means with known/estimated variances and sample sizes:
`sqrt(var1/n1 + var2/n2)`"; per §7 a zero denominator yields the neutral
contribution 0 instead of a division.  The two mean arguments match the
call sites' signature and are not used by the formula. -/
noncomputable def diffMeanSE (_mean1 var1 n1 _mean2 var2 n2 : ℚ) : ℝ :=
  Real.sqrt ((((if n1 = 0 then 0 else var1 / n1) +
               (if n2 = 0 then 0 else var2 / n2) : ℚ)) : ℝ)

/-- Modelled from the spec: `welchDF`, absent from `src/`.  §4.1:
Welch–Satterthwaite degrees of freedom from the two (variance, n) pairs,
"fails/returns a degenerate but non-crashing value when either n ≤ 1 —
implementers must guard division by zero by returning 0 or a capped df
rather than throwing"; modelled as returning 0 in the degenerate cases. -/
def welchDF (var1 n1 var2 n2 : ℚ) : ℚ :=
  if n1 ≤ 1 ∨ n2 ≤ 1 then 0
  else
    let a := var1 / n1
    let b := var2 / n2
    let den := a ^ 2 / (n1 - 1) + b ^ 2 / (n2 - 1)
    if den = 0 then 0 else (a + b) ^ 2 / den

/-- Modelled from the spec: `tScore`, absent from `src/`.  §4.1 lists z/t
scores together; modelled as `value / se` with the same `se = 0` guard as
`zScore`. -/
noncomputable def tScore (value se : ℝ) : ℝ :=
  if se = 0 then 0 else value / se

/-- Modelled from the spec: `pValueFromT`, absent from `src/`.  §4.1 fixes
only that the p-value from a t statistic is "an equivalent two-sided
approximation parameterized by degrees of freedom"; modelled as the normal
approximation applied to the t statistic deflated by `sqrt(df/(df+1))`, a
df-dependent correction that widens the p-value for small df and agrees
with `pValueFromZ` in the limit of large df. -/
noncomputable def pValueFromT (t : ℝ) (df : ℚ) : ℝ :=
  pValueFromZ (t * Real.sqrt (((df : ℝ)) / ((df : ℝ) + 1)))

/-- Modelled from the spec: `confidenceIntervalT`, absent from `src/`.
Modelled as `estimate ± tCrit·se` with the 95% critical value inflated by
the factor inverse to the `pValueFromT` deflation (1.96 at degenerate df). -/
noncomputable def confidenceIntervalT (estimate se : ℝ) (df : ℚ) : ℝ × ℝ :=
  let tCrit : ℝ :=
    if df ≤ 0 then 1.96 else 1.96 * Real.sqrt (((df : ℝ) + 1) / ((df : ℝ)))
  (estimate - tCrit * se, estimate + tCrit * se)

/-! ## Aggregation (`stats/naiveAB.ts`) -/

/-- The all-zero `AggregatedMetrics` literal that opens
`computeAggregatedMetrics`. -/
def initMetrics : AggregatedMetrics :=
  { control := { pre := ⟨0, 0, 0, 0, 0, 0⟩, post := ⟨0, 0, 0, 0, 0, 0⟩ },
    treatment := { pre := ⟨0, 0, 0, 0, 0, 0⟩, post := ⟨0, 0, 0, 0, 0, 0⟩ } }

/-- One iteration of the accumulation loop of `computeAggregatedMetrics`:
add the eight counters of `u` to its arm's pre/post summaries. -/
def addUserCounters (g : GroupPeriods) (u : User) : GroupPeriods :=
  { pre :=
      { g.pre with
        impressions := g.pre.impressions + u.preImpressions
        clicks := g.pre.clicks + u.preClicks
        metricSum := g.pre.metricSum + u.preMetricSum
        metricCount := g.pre.metricCount + u.preMetricCount },
    post :=
      { g.post with
        impressions := g.post.impressions + u.postImpressions
        clicks := g.post.clicks + u.postClicks
        metricSum := g.post.metricSum + u.postMetricSum
        metricCount := g.post.metricCount + u.postMetricCount } }

/-- The `metrics[user.group]` routing of the accumulation loop. -/
def addUser (m : AggregatedMetrics) (u : User) : AggregatedMetrics :=
  match u.group with
  | .control => { m with control := addUserCounters m.control u }
  | .treatment => { m with treatment := addUserCounters m.treatment u }

/-- The rate-derivation pass of `computeAggregatedMetrics`:
`ctr = impressions > 0 ? clicks/impressions : 0` and
`metricMean = metricCount > 0 ? metricSum/metricCount : 0`. -/
def deriveRates1 (g : GroupMetrics) : GroupMetrics :=
  { g with
    ctr := if 0 < g.impressions then g.clicks / g.impressions else 0
    metricMean := if 0 < g.metricCount then g.metricSum / g.metricCount else 0 }

/-- The rate-derivation loop over the four group×period summaries. -/
def deriveRates (m : AggregatedMetrics) : AggregatedMetrics :=
  { control := ⟨deriveRates1 m.control.pre, deriveRates1 m.control.post⟩,
    treatment := ⟨deriveRates1 m.treatment.pre, deriveRates1 m.treatment.post⟩ }

/-- `computeAggregatedMetrics` from `naiveAB.ts`: accumulate every user's
counters into their arm's pre/post summaries, then derive the rates. -/
def computeAggregatedMetrics (users : List User) : AggregatedMetrics :=
  deriveRates (users.foldl addUser initMetrics)

/-- The users of a given arm, in order (`users.filter(u => u.group === group)`). -/
def groupUsers (users : List User) (group : Group) : List User :=
  users.filter (fun u => u.group == group)

/-- `getUserMetricValues` from `naiveAB.ts`: per-user rates (for
proportion kinds, with the source's vacuous `filter(v => v > 0 || true)`
kept) or per-user means (for continuous kinds, filtered to `v > 0`). -/
def getUserMetricValues (users : List User) (period : Period) (group : Group)
    (metricType : MetricType) : List ℚ :=
  let filteredUsers := groupUsers users group
  if metricType = .ctr ∨ metricType = .conversion then
    (filteredUsers.map (fun u =>
      let impressions := match period with | .pre => u.preImpressions | .post => u.postImpressions
      let clicks := match period with | .pre => u.preClicks | .post => u.postClicks
      if 0 < impressions then clicks / impressions else 0)).filter
        (fun v => decide (0 < v) || true)
  else
    (filteredUsers.map (fun u =>
      let sum := match period with | .pre => u.preMetricSum | .post => u.postMetricSum
      let count := match period with | .pre => u.preMetricCount | .post => u.postMetricCount
      if 0 < count then sum / count else 0)).filter
        (fun v => decide (0 < v))

/-! ## Naive estimator (`stats/naiveAB.ts`) -/

/-- `naiveABTest` from `naiveAB.ts`.  The optional `users` argument is the
TS optional parameter; the TS defaults `metricType = 'ctr'` and
`users = undefined` are written explicitly at call sites. -/
noncomputable def naiveABTest (metrics : AggregatedMetrics)
    (metricType : MetricType) (users : Option (List User)) : StatResult :=
  let ctrl := metrics.control.post
  let treat := metrics.treatment.post
  let config := METRIC_CONFIGS metricType
  if config.isContinuous then
    let ctrlMean := ctrl.metricMean
    let treatMean := treat.metricMean
    let estimate := treatMean - ctrlMean
    let vars : ℚ × ℚ :=
      match users with
      | some us =>
          (variance (getUserMetricValues us .post .control metricType),
           variance (getUserMetricValues us .post .treatment metricType))
      | none => (ctrlMean * 0.5, treatMean * 0.5)
    let ctrlVar := vars.1
    let treatVar := vars.2
    let se := diffMeanSE ctrlMean ctrlVar ctrl.metricCount treatMean treatVar treat.metricCount
    let df := welchDF ctrlVar ctrl.metricCount treatVar treat.metricCount
    let t := tScore ((estimate : ℚ) : ℝ) se
    let pValue := pValueFromT t df
    let ci := confidenceIntervalT ((estimate : ℚ) : ℝ) se df
    { estimate := estimate
      standardError := se
      confidenceInterval := ci
      pValue := pValue
      significant := decide (pValue < 0.05) }
  else
    let ctrControl := ctrl.ctr
    let ctrTreatment := treat.ctr
    let estimate := ctrTreatment - ctrControl
    let se := diffProportionSE ctrControl ctrl.impressions ctrTreatment treat.impressions
    let ci := confidenceInterval ((estimate : ℚ) : ℝ) se 0.95
    let z := zScore ((estimate : ℚ) : ℝ) se
    let pValue := pValueFromZ z
    { estimate := estimate
      standardError := se
      confidenceInterval := ci
      pValue := pValue
      significant := decide (pValue < 0.05) }

/-- The `{ lift, liftCI }` result of `computeRelativeLift`. -/
structure LiftResult where
  lift : ℚ
  liftCI : ℝ × ℝ

/-- `computeRelativeLift` from `naiveAB.ts`: relative lift over the
control arm's post value, `{0, [0,0]}` when that value is 0, otherwise the
naive SE rescaled by the base value. -/
noncomputable def computeRelativeLift (metrics : AggregatedMetrics)
    (metricType : MetricType) (users : Option (List User)) : LiftResult :=
  let config := METRIC_CONFIGS metricType
  let ctrl := metrics.control.post
  let treat := metrics.treatment.post
  let baseValue := if config.isContinuous then ctrl.metricMean else ctrl.ctr
  let treatValue := if config.isContinuous then treat.metricMean else treat.ctr
  if baseValue = 0 then { lift := 0, liftCI := (0, 0) }
  else
    let lift := (treatValue - baseValue) / baseValue
    let abResult := naiveABTest metrics metricType users
    let seLift := abResult.standardError / ((baseValue : ℚ) : ℝ)
    { lift := lift, liftCI := confidenceInterval ((lift : ℚ) : ℝ) seLift 0.95 }

/-- The result record of `checkBaselineImbalance`. -/
structure BaselineResult where
  imbalanceDetected : Bool
  preDifference : ℚ
  pValue : ℝ

/-- `checkBaselineImbalance` from `naiveAB.ts`: the pre-period difference
with a z-test p-value (fallback `mean * 0.5` variances in the continuous
case), flagged at the looser 0.10 threshold. -/
noncomputable def checkBaselineImbalance (metrics : AggregatedMetrics)
    (metricType : MetricType) : BaselineResult :=
  let ctrl := metrics.control.pre
  let treat := metrics.treatment.pre
  let config := METRIC_CONFIGS metricType
  let diffAndSE : ℚ × ℝ :=
    if config.isContinuous then
      let preDifference := treat.metricMean - ctrl.metricMean
      let ctrlVar := ctrl.metricMean * 0.5
      let treatVar := treat.metricMean * 0.5
      (preDifference,
       diffMeanSE ctrl.metricMean ctrlVar ctrl.metricCount treat.metricMean treatVar treat.metricCount)
    else
      (treat.ctr - ctrl.ctr,
       diffProportionSE ctrl.ctr ctrl.impressions treat.ctr treat.impressions)
  let preDifference := diffAndSE.1
  let se := diffAndSE.2
  let z := zScore ((preDifference : ℚ) : ℝ) se
  let pValue := pValueFromZ z
  { imbalanceDetected := decide (pValue < 0.1)
    preDifference := preDifference
    pValue := pValue }

/-! ## CUPED estimator (the CUPED module, `src/unnamed/part_000`) -/

/-- `UserMetrics` from the CUPED module: one qualifying user's pre/post
metric pair. -/
structure UserMetrics where
  userId : String
  group : Group
  preMetric : ℚ
  postMetric : ℚ
deriving DecidableEq, Repr

/-- `extractUserMetrics` from the CUPED module: drop users lacking data in
either period (count/impressions must be positive in both), then map each
remaining user to their per-period ratio (continuous: sum/count,
proportion: clicks/impressions). -/
def extractUserMetrics (users : List User) (metricType : MetricType) : List UserMetrics :=
  let config := METRIC_CONFIGS metricType
  if config.isContinuous then
    (users.filter (fun u => decide (0 < u.preMetricCount) && decide (0 < u.postMetricCount))).map
      (fun u =>
        { userId := u.id
          group := u.group
          preMetric := u.preMetricSum / u.preMetricCount
          postMetric := u.postMetricSum / u.postMetricCount })
  else
    (users.filter (fun u => decide (0 < u.preImpressions) && decide (0 < u.postImpressions))).map
      (fun u =>
        { userId := u.id
          group := u.group
          preMetric := u.preClicks / u.preImpressions
          postMetric := u.postClicks / u.postImpressions })

/-- `computeCUPED` from the CUPED module: neutral result below 10
qualifying users; otherwise pooled `theta = Cov(post,pre)/Var(pre)` (0 when
`Var(pre)` is not positive), per-user adjusted post values, difference of
adjusted arm means, pooled-variance standard error, and the variance
before/after bookkeeping.  The `1/control.length + 1/treatment.length`
factor of the source is unguarded (see the file header note on `x/0`). -/
noncomputable def computeCUPED (users : List User) (metricType : MetricType) : CupedResult :=
  let userMetrics := extractUserMetrics users metricType
  if userMetrics.length < 10 then
    { estimate := 0
      standardError := 0
      confidenceInterval := (0, 0)
      pValue := 1
      significant := false
      theta := 0
      varianceReduction := 0
      varianceBefore := 0
      varianceAfter := 0 }
  else
    let control := userMetrics.filter (fun u => u.group == Group.control)
    let treatment := userMetrics.filter (fun u => u.group == Group.treatment)
    let allX := userMetrics.map (fun u => u.preMetric)
    let allY := userMetrics.map (fun u => u.postMetric)
    let covYX := covariance allY allX
    let varX := variance allX
    let theta := if 0 < varX then covYX / varX else 0
    let meanX := mean allX
    let controlAdjusted := control.map (fun u => u.postMetric - theta * (u.preMetric - meanX))
    let treatmentAdjusted := treatment.map (fun u => u.postMetric - theta * (u.preMetric - meanX))
    let controlRaw := control.map (fun u => u.postMetric)
    let treatmentRaw := treatment.map (fun u => u.postMetric)
    let meanControlAdj := mean controlAdjusted
    let meanTreatmentAdj := mean treatmentAdjusted
    let estimate := meanTreatmentAdj - meanControlAdj
    let pooledVariance :=
      (variance controlAdjusted * ((control.length : ℚ) - 1) +
       variance treatmentAdjusted * ((treatment.length : ℚ) - 1)) /
        ((control.length : ℚ) + (treatment.length : ℚ) - 2)
    let se := Real.sqrt (((pooledVariance *
      (1 / (control.length : ℚ) + 1 / (treatment.length : ℚ)) : ℚ)) : ℝ)
    let varianceBefore := variance (controlRaw ++ treatmentRaw)
    let varianceAfter := variance (controlAdjusted ++ treatmentAdjusted)
    let varianceReduction := if 0 < varianceBefore then 1 - varianceAfter / varianceBefore else 0
    let ci := confidenceInterval ((estimate : ℚ) : ℝ) se 0.95
    let z := zScore ((estimate : ℚ) : ℝ) se
    let pValue := pValueFromZ z
    { estimate := estimate
      standardError := se
      confidenceInterval := ci
      pValue := pValue
      significant := decide (pValue < 0.05)
      theta := theta
      varianceReduction := varianceReduction
      varianceBefore := varianceBefore
      varianceAfter := varianceAfter }

/-! ## DiD estimator (`stats/did.ts`, multi-metric version) -/

/-- `getMetricValue` from `did.ts`: the summary's mean for continuous
kinds, its CTR for proportion kinds. -/
def getMetricValue (group : GroupMetrics) (metricType : MetricType) : ℚ :=
  if (METRIC_CONFIGS metricType).isContinuous then group.metricMean else group.ctr

/-- The JS `x || 1` guard used by `computeDiD` on counts: 1 when the count
is 0, else the count itself. -/
def orOne (x : ℚ) : ℚ :=
  if x = 0 then 1 else x

/-- `computeDiD` from `did.ts` (multi-metric version): the interaction
estimate `(treatPost − treatPre) − (ctrlPost − ctrlPre)` with the
aggregate-level standard-error approximations of the source (pooled
per-arm proportions, or the `mean·0.5` variance proxy for continuous
kinds). -/
noncomputable def computeDiD (metrics : AggregatedMetrics) (metricType : MetricType) : DidResult :=
  let config := METRIC_CONFIGS metricType
  let treatPre := getMetricValue metrics.treatment.pre metricType
  let treatPost := getMetricValue metrics.treatment.post metricType
  let ctrlPre := getMetricValue metrics.control.pre metricType
  let ctrlPost := getMetricValue metrics.control.post metricType
  let treatDelta := treatPost - treatPre
  let ctrlDelta := ctrlPost - ctrlPre
  let estimate := treatDelta - ctrlDelta
  let se : ℝ :=
    if config.isContinuous then
      let n1Pre := orOne metrics.control.pre.metricCount
      let n1Post := orOne metrics.control.post.metricCount
      let n2Pre := orOne metrics.treatment.pre.metricCount
      let n2Post := orOne metrics.treatment.post.metricCount
      let varCtrl := ((ctrlPre + ctrlPost) / 2) * 0.5
      let varTreat := ((treatPre + treatPost) / 2) * 0.5
      let se1 := Real.sqrt (((varCtrl * (1 / n1Pre + 1 / n1Post) : ℚ)) : ℝ)
      let se2 := Real.sqrt (((varTreat * (1 / n2Pre + 1 / n2Post) : ℚ)) : ℝ)
      Real.sqrt (se1 * se1 + se2 * se2)
    else
      let n1 := metrics.control.pre.impressions + metrics.control.post.impressions
      let n2 := metrics.treatment.pre.impressions + metrics.treatment.post.impressions
      let p1 := (metrics.control.pre.clicks + metrics.control.post.clicks) / orOne n1
      let p2 := (metrics.treatment.pre.clicks + metrics.treatment.post.clicks) / orOne n2
      let se1 := Real.sqrt (((p1 * (1 - p1) *
        (1 / orOne metrics.control.pre.impressions + 1 / orOne metrics.control.post.impressions) : ℚ)) : ℝ)
      let se2 := Real.sqrt (((p2 * (1 - p2) *
        (1 / orOne metrics.treatment.pre.impressions + 1 / orOne metrics.treatment.post.impressions) : ℚ)) : ℝ)
      Real.sqrt (se1 * se1 + se2 * se2)
  let ci := confidenceInterval ((estimate : ℚ) : ℝ) se 0.95
  let z := zScore ((estimate : ℚ) : ℝ) se
  let pValue := pValueFromZ z
  { estimate := estimate
    standardError := se
    confidenceInterval := ci
    pValue := pValue
    significant := decide (pValue < 0.05)
    treatPre := treatPre
    treatPost := treatPost
    ctrlPre := ctrlPre
    ctrlPost := ctrlPost
    treatDelta := treatDelta
    ctrlDelta := ctrlDelta }

/-- The result record of `checkParallelTrends`. -/
structure ParallelTrendsResult where
  preDifference : ℚ
  isParallel : Bool
  warning : Option String
deriving DecidableEq, Repr

/-- `checkParallelTrends` from `did.ts` (multi-metric version): compares
the two arms' pre-period values against a metric-kind-dependent threshold
(2pp for proportions, 20% of the control pre value for continuous). -/
def checkParallelTrends (metrics : AggregatedMetrics) (metricType : MetricType) :
    ParallelTrendsResult :=
  let config := METRIC_CONFIGS metricType
  let treatPre := getMetricValue metrics.treatment.pre metricType
  let ctrlPre := getMetricValue metrics.control.pre metricType
  let preDifference := treatPre - ctrlPre
  let threshold : ℚ := if config.isContinuous then ctrlPre * 0.2 else 0.02
  let isParallel := decide (|preDifference| < threshold)
  let metricName := if config.isContinuous then "metric" else "CTR"
  { preDifference := preDifference
    isParallel := isParallel
    warning :=
      if isParallel then none
      else some ("Pre-period " ++ metricName ++
        " differs between groups. Parallel trends assumption may be violated.") }

/-- The record of OLS-style coefficients returned by
`didRegressionInterpretation`. -/
structure DidRegression where
  intercept : ℚ
  treatCoef : ℚ
  postCoef : ℚ
  interactionCoef : ℚ
deriving DecidableEq, Repr

/-- `didRegressionInterpretation` from `did.ts` (multi-metric version):
the four summary values re-expressed as regression coefficients. -/
def didRegressionInterpretation (metrics : AggregatedMetrics) (metricType : MetricType) :
    DidRegression :=
  let ctrlPre := getMetricValue metrics.control.pre metricType
  let ctrlPost := getMetricValue metrics.control.post metricType
  let treatPre := getMetricValue metrics.treatment.pre metricType
  let treatPost := getMetricValue metrics.treatment.post metricType
  { intercept := ctrlPre
    treatCoef := treatPre - ctrlPre
    postCoef := ctrlPost - ctrlPre
    interactionCoef := (treatPost - treatPre) - (ctrlPost - ctrlPre) }

/-! ## DiD estimator, earlier CTR-only version (`stats/did.ts`, second copy) -/

/-- The CTR-only `computeDiD` (the earlier variant kept in `did.ts`):
identical math with the metric values fixed to the CTR fields. -/
noncomputable def computeDiDCtrOnly (metrics : AggregatedMetrics) : DidResult :=
  let treatPre := metrics.treatment.pre.ctr
  let treatPost := metrics.treatment.post.ctr
  let ctrlPre := metrics.control.pre.ctr
  let ctrlPost := metrics.control.post.ctr
  let treatDelta := treatPost - treatPre
  let ctrlDelta := ctrlPost - ctrlPre
  let estimate := treatDelta - ctrlDelta
  let n1 := metrics.control.pre.impressions + metrics.control.post.impressions
  let n2 := metrics.treatment.pre.impressions + metrics.treatment.post.impressions
  let p1 := (metrics.control.pre.clicks + metrics.control.post.clicks) / orOne n1
  let p2 := (metrics.treatment.pre.clicks + metrics.treatment.post.clicks) / orOne n2
  let se1 := Real.sqrt (((p1 * (1 - p1) *
    (1 / orOne metrics.control.pre.impressions + 1 / orOne metrics.control.post.impressions) : ℚ)) : ℝ)
  let se2 := Real.sqrt (((p2 * (1 - p2) *
    (1 / orOne metrics.treatment.pre.impressions + 1 / orOne metrics.treatment.post.impressions) : ℚ)) : ℝ)
  let se := Real.sqrt (se1 * se1 + se2 * se2)
  let ci := confidenceInterval ((estimate : ℚ) : ℝ) se 0.95
  let z := zScore ((estimate : ℚ) : ℝ) se
  let pValue := pValueFromZ z
  { estimate := estimate
    standardError := se
    confidenceInterval := ci
    pValue := pValue
    significant := decide (pValue < 0.05)
    treatPre := treatPre
    treatPost := treatPost
    ctrlPre := ctrlPre
    ctrlPost := ctrlPost
    treatDelta := treatDelta
    ctrlDelta := ctrlDelta }

/-- The CTR-only `checkParallelTrends` (earlier variant in `did.ts`). -/
def checkParallelTrendsCtrOnly (metrics : AggregatedMetrics) : ParallelTrendsResult :=
  let preDifference := metrics.treatment.pre.ctr - metrics.control.pre.ctr
  let threshold : ℚ := 0.02
  let isParallel := decide (|preDifference| < threshold)
  { preDifference := preDifference
    isParallel := isParallel
    warning :=
      if isParallel then none
      else some "Pre-period CTR differs between groups. Parallel trends assumption may be violated." }

/-- The CTR-only `didRegressionInterpretation` (earlier variant in
`did.ts`). -/
def didRegressionInterpretationCtrOnly (metrics : AggregatedMetrics) : DidRegression :=
  let ctrlPre := metrics.control.pre.ctr
  let ctrlPost := metrics.control.post.ctr
  let treatPre := metrics.treatment.pre.ctr
  let treatPost := metrics.treatment.post.ctr
  { intercept := ctrlPre
    treatCoef := treatPre - ctrlPre
    postCoef := ctrlPost - ctrlPre
    interactionCoef := (treatPost - treatPre) - (ctrlPost - ctrlPre) }

/-! ## Auxiliary notions and concrete inputs used by the theorems -/

/-- The aggregated-metrics input with every arm's post-period summary
replaced by its pre-period summary: "the identical math applied to the
pre-period summaries instead of post" means running `naiveABTest` on this
input. -/
def prePosted (m : AggregatedMetrics) : AggregatedMetrics :=
  { control := ⟨m.control.pre, m.control.pre⟩,
    treatment := ⟨m.treatment.pre, m.treatment.pre⟩ }

/-- A control user whose single post-period impression was clicked
(per-user post CTR 1). -/
def userC1 : User :=
  { id := "c1", group := .control
    preClicks := 0, preImpressions := 1, postClicks := 1, postImpressions := 1
    preMetricSum := 0, postMetricSum := 0, preMetricCount := 0, postMetricCount := 0 }

/-- A control user with three unclicked post-period impressions (per-user
post CTR 0). -/
def userC0 : User :=
  { id := "c0", group := .control
    preClicks := 0, preImpressions := 1, postClicks := 0, postImpressions := 3
    preMetricSum := 0, postMetricSum := 0, preMetricCount := 0, postMetricCount := 0 }

/-- A treatment user with one unclicked post-period impression. -/
def userT0 : User :=
  { id := "t0", group := .treatment
    preClicks := 0, preImpressions := 1, postClicks := 0, postImpressions := 1
    preMetricSum := 0, postMetricSum := 0, preMetricCount := 0, postMetricCount := 0 }

/-- Twelve users, all qualifying for CUPED on a proportion metric, with
identical (zero) pre-period ratios: one clicked control user, five
unclicked control users, six unclicked treatment users. -/
def userList12 : List User :=
  [userC1, userC0, userC0, userC0, userC0, userC0,
   userT0, userT0, userT0, userT0, userT0, userT0]

/-- A treatment user with one clicked post impression, qualifying for
CUPED on a proportion metric. -/
def userT1 : User :=
  { id := "t1", group := .treatment
    preClicks := 0, preImpressions := 1, postClicks := 1, postImpressions := 1
    preMetricSum := 0, postMetricSum := 0, preMetricCount := 0, postMetricCount := 0 }

/-- Ten qualifying users, all in the treatment arm: the control arm of the
CUPED computation is empty. -/
def userList10 : List User :=
  [userT1, userT1, userT1, userT1, userT1, userT1, userT1, userT1, userT1, userT1]

/-- A control user with one post-period continuous event of value 0: the
user has post-period data (`postMetricCount ≠ 0`) and per-user mean 0. -/
def userZeroSum : User :=
  { id := "z", group := .control
    preClicks := 0, preImpressions := 0, postClicks := 0, postImpressions := 0
    preMetricSum := 0, postMetricSum := 0, preMetricCount := 0, postMetricCount := 1 }

/-- A concrete continuous-metric aggregated input: control pre mean 3/2
from a single counted event, treatment pre mean 7/2 from seven, chosen so
that the fallback-variance standard error is exactly 1 and the z statistic
exactly 2. -/
def contMetrics : AggregatedMetrics :=
  { control :=
      { pre := { impressions := 0, clicks := 0, ctr := 0,
                 metricSum := 3/2, metricCount := 1, metricMean := 3/2 },
        post := ⟨0, 0, 0, 0, 0, 0⟩ },
    treatment :=
      { pre := { impressions := 0, clicks := 0, ctr := 0,
                 metricSum := 49/2, metricCount := 7, metricMean := 7/2 },
        post := ⟨0, 0, 0, 0, 0, 0⟩ } }

/-- The counter a proportion metric reads in a given period. -/
def impressionsIn (u : User) (p : Period) : ℚ :=
  match p with | .pre => u.preImpressions | .post => u.postImpressions

/-- The successes counter of a proportion metric in a given period. -/
def clicksIn (u : User) (p : Period) : ℚ :=
  match p with | .pre => u.preClicks | .post => u.postClicks

/-- The value-sum counter of a continuous metric in a given period. -/
def metricSumIn (u : User) (p : Period) : ℚ :=
  match p with | .pre => u.preMetricSum | .post => u.postMetricSum

/-- The event-count counter of a continuous metric in a given period. -/
def metricCountIn (u : User) (p : Period) : ℚ :=
  match p with | .pre => u.preMetricCount | .post => u.postMetricCount

/-- The group×period summary selected by an arm and a period. -/
def periodSummary (m : AggregatedMetrics) (g : Group) (p : Period) : GroupMetrics :=
  match g, p with
  | .control, .pre => m.control.pre
  | .control, .post => m.control.post
  | .treatment, .pre => m.treatment.pre
  | .treatment, .post => m.treatment.post

/-- The exact sum of one counter over the users of one arm. -/
def sumBy (users : List User) (g : Group) (f : User → ℚ) : ℚ :=
  ((groupUsers users g).map f).sum

/-! ## Helper lemmas -/

/-- At `z = 0` the Abramowitz–Stegun polynomial is evaluated at `t = 1`
and the exponential factor is 1, so the approximation returns exactly
twice the sum of the five coefficients. -/
lemma pValueFromZ_zero : pValueFromZ 0 = 1.999999998 := by
  simp only [pValueFromZ, abs_zero, mul_zero, zero_mul, neg_zero, zero_div, Real.exp_zero]
  norm_num

/-- `pValueFromZ` is continuous: the denominator `1 + p·|z|` is never
zero and the remaining operations are polynomial and exponential. -/
lemma continuous_pValueFromZ : Continuous pValueFromZ := by
  have habs : Continuous fun z : ℝ => |z| := continuous_abs
  have hden : Continuous fun z : ℝ => (1.0 : ℝ) + 0.3275911 * |z| :=
    continuous_const.add (continuous_const.mul habs)
  have hdenne : ∀ z : ℝ, (1.0 : ℝ) + 0.3275911 * |z| ≠ 0 := by
    intro z
    positivity
  have ht : Continuous fun z : ℝ => (1.0 : ℝ) / ((1.0 : ℝ) + 0.3275911 * |z|) :=
    continuous_const.div hden hdenne
  have hexp : Continuous fun z : ℝ => Real.exp (-|z| * |z| / 2) :=
    Real.continuous_exp.comp ((habs.neg.mul habs).div_const 2)
  unfold pValueFromZ
  exact continuous_const.mul (continuous_const.sub (continuous_const.sub
    (((((((continuous_const.mul ht).add continuous_const).mul ht).add
      continuous_const).mul ht |>.add continuous_const).mul ht |>.add
        continuous_const).mul ht |>.mul hexp)))

/-- Reflexivity of the derived `BEq` on `Group`. -/
@[simp] lemma group_beq_self (g : Group) : (g == g) = true := by
  cases g <;> rfl

/-- The derived `BEq` distinguishes the two arms. -/
@[simp] lemma control_beq_treatment : (Group.control == Group.treatment) = false := rfl

/-- The derived `BEq` distinguishes the two arms. -/
@[simp] lemma treatment_beq_control : (Group.treatment == Group.control) = false := rfl

/-- The accumulation loop of `computeAggregatedMetrics`, fully described:
starting from any accumulator, each of the sixteen counter slots grows by
the exact sum of the corresponding user counters of its arm, and the
derived-rate slots are untouched. -/
lemma foldl_addUser_eq (users : List User) : ∀ m : AggregatedMetrics,
    users.foldl addUser m =
      { control :=
          { pre :=
              { impressions := m.control.pre.impressions + sumBy users .control (fun u => u.preImpressions)
                clicks := m.control.pre.clicks + sumBy users .control (fun u => u.preClicks)
                ctr := m.control.pre.ctr
                metricSum := m.control.pre.metricSum + sumBy users .control (fun u => u.preMetricSum)
                metricCount := m.control.pre.metricCount + sumBy users .control (fun u => u.preMetricCount)
                metricMean := m.control.pre.metricMean }
            post :=
              { impressions := m.control.post.impressions + sumBy users .control (fun u => u.postImpressions)
                clicks := m.control.post.clicks + sumBy users .control (fun u => u.postClicks)
                ctr := m.control.post.ctr
                metricSum := m.control.post.metricSum + sumBy users .control (fun u => u.postMetricSum)
                metricCount := m.control.post.metricCount + sumBy users .control (fun u => u.postMetricCount)
                metricMean := m.control.post.metricMean } }
        treatment :=
          { pre :=
              { impressions := m.treatment.pre.impressions + sumBy users .treatment (fun u => u.preImpressions)
                clicks := m.treatment.pre.clicks + sumBy users .treatment (fun u => u.preClicks)
                ctr := m.treatment.pre.ctr
                metricSum := m.treatment.pre.metricSum + sumBy users .treatment (fun u => u.preMetricSum)
                metricCount := m.treatment.pre.metricCount + sumBy users .treatment (fun u => u.preMetricCount)
                metricMean := m.treatment.pre.metricMean }
            post :=
              { impressions := m.treatment.post.impressions + sumBy users .treatment (fun u => u.postImpressions)
                clicks := m.treatment.post.clicks + sumBy users .treatment (fun u => u.postClicks)
                ctr := m.treatment.post.ctr
                metricSum := m.treatment.post.metricSum + sumBy users .treatment (fun u => u.postMetricSum)
                metricCount := m.treatment.post.metricCount + sumBy users .treatment (fun u => u.postMetricCount)
                metricMean := m.treatment.post.metricMean } } } := by
  induction users with
  | nil =>
      intro m
      simp [sumBy, groupUsers]
  | cons u us ih =>
      intro m
      rw [List.foldl_cons, ih (addUser m u)]
      cases hu : u.group with
      | control =>
          simp only [addUser, hu, addUserCounters, sumBy, groupUsers, List.filter_cons,
            group_beq_self, control_beq_treatment, treatment_beq_control,
            List.map_cons, List.sum_cons, AggregatedMetrics.mk.injEq,
            GroupPeriods.mk.injEq, GroupMetrics.mk.injEq, if_true, if_false,
            ite_true, ite_false, Bool.false_eq_true]
          and_intros <;> ring_nf
      | treatment =>
          simp only [addUser, hu, addUserCounters, sumBy, groupUsers, List.filter_cons,
            group_beq_self, control_beq_treatment, treatment_beq_control,
            List.map_cons, List.sum_cons, AggregatedMetrics.mk.injEq,
            GroupPeriods.mk.injEq, GroupMetrics.mk.injEq, if_true, if_false,
            ite_true, ite_false, Bool.false_eq_true]
          and_intros <;> ring_nf

/-- The vacuous `filter(v => v > 0 || true)` of the proportion branch of
`getUserMetricValues` keeps every element. -/
lemma filter_or_true (l : List ℚ) : l.filter (fun v => decide (0 < v) || true) = l := by
  induction l with
  | nil => rfl
  | cons a l ih => simp [List.filter_cons, ih]

/-- The Abramowitz–Stegun approximation at `z = 2` is below 1: the
polynomial factor is a fixed rational below 3/2 and `exp(-2) ≤ 1/3`. -/
lemma pValueFromZ_two_lt_one : pValueFromZ 2 < 1 := by
  have hexp3 : (3 : ℝ) ≤ Real.exp 2 := by
    have h := Real.add_one_le_exp (2 : ℝ)
    linarith
  have hexp : Real.exp (-(2 : ℝ)) ≤ 1 / 3 := by
    rw [Real.exp_neg]
    have h1 : (Real.exp 2)⁻¹ ≤ (3 : ℝ)⁻¹ := by
      apply inv_anti₀ (by norm_num) hexp3
    simpa using h1
  have hpos : (0 : ℝ) < Real.exp (-(2 : ℝ)) := Real.exp_pos _
  have habs : |(2 : ℝ)| = 2 := abs_of_nonneg (by norm_num)
  simp only [pValueFromZ, habs]
  rw [show ((-(2 : ℝ)) * 2 / 2) = -2 by norm_num]
  generalize hE : Real.exp (-(2 : ℝ)) = E at hexp hpos ⊢
  nlinarith [hexp, hpos]

/-- A list all of whose elements equal `c` has `variance` 0: either it is
short, or its mean is `c` and every squared deviation vanishes. -/
lemma variance_eq_zero_of_const (l : List ℚ) (c : ℚ) (h : ∀ x ∈ l, x = c) :
    variance l = 0 := by
  unfold variance
  split
  · rfl
  · rename_i hlen
    have hne : (l.length : ℚ) ≠ 0 := by
      have : 2 ≤ l.length := Nat.le_of_not_lt hlen
      exact_mod_cast Nat.pos_iff_ne_zero.mp (by omega)
    have hsum : l.sum = (l.length : ℚ) * c := by
      rw [List.sum_eq_card_nsmul l c h]
      simp [nsmul_eq_mul]
    have hmean : mean l = c := by
      unfold mean
      rw [if_neg (by exact_mod_cast hne), hsum]
      field_simp
    have hzero : ∀ y ∈ l.map (fun x => (x - mean l) ^ 2), y = 0 := by
      intro y hy
      rcases List.mem_map.mp hy with ⟨x, hx, rfl⟩
      rw [hmean, h x hx]
      ring
    rw [List.sum_eq_zero hzero, zero_div]

end DataLearningLab

namespace DataLearningLab

/-! ## Claim theorems -/

/-- C1: for every user list and metric kind with fewer than 10 qualifying
users (positive pre- and post-period denominators), `computeCUPED` returns
the neutral result: estimate 0, standard error 0, confidence interval
[0,0], p-value 1, not significant, theta 0. -/
theorem cuped_small_sample_neutral (users : List User) (metricType : MetricType)
    (h : (extractUserMetrics users metricType).length < 10) :
    computeCUPED users metricType =
      { estimate := 0, standardError := 0, confidenceInterval := (0, 0),
        pValue := 1, significant := false, theta := 0,
        varianceReduction := 0, varianceBefore := 0, varianceAfter := 0 } := by
  simp only [computeCUPED]
  rw [if_pos h]

/-- Witness for C1 at the empty user list. -/
theorem cuped_small_sample_neutral_witness :
    computeCUPED [] MetricType.ctr =
      { estimate := 0, standardError := 0, confidenceInterval := (0, 0),
        pValue := 1, significant := false, theta := 0,
        varianceReduction := 0, varianceBefore := 0, varianceAfter := 0 } :=
  cuped_small_sample_neutral [] MetricType.ctr (by decide)

/-- C2: for every aggregated-metrics input and metric kind, the
`interactionCoef` of `didRegressionInterpretation` equals the `estimate`
of `computeDiD` exactly, and both equal
`(treatmentPost − treatmentPre) − (controlPost − controlPre)`. -/
theorem did_regression_interaction_eq (m : AggregatedMetrics) (metricType : MetricType) :
    (didRegressionInterpretation m metricType).interactionCoef =
      (computeDiD m metricType).estimate ∧
    (computeDiD m metricType).estimate =
      (getMetricValue m.treatment.post metricType - getMetricValue m.treatment.pre metricType) -
      (getMetricValue m.control.post metricType - getMetricValue m.control.pre metricType) :=
  ⟨rfl, rfl⟩

/-- C9: at metric kind `ctr` the earlier CTR-only implementations of
`computeDiD`, `checkParallelTrends` and `didRegressionInterpretation`
agree with the multi-metric implementations on every input. -/
theorem ctr_only_eq_multi (m : AggregatedMetrics) :
    computeDiDCtrOnly m = computeDiD m MetricType.ctr ∧
    checkParallelTrendsCtrOnly m = checkParallelTrends m MetricType.ctr ∧
    didRegressionInterpretationCtrOnly m = didRegressionInterpretation m MetricType.ctr :=
  ⟨rfl, rfl, rfl⟩

/-- C10: `pValueFromZ` depends only on `|z|`; at `z = 0` it returns
exactly `2·(a1+a2+a3+a4+a5) = 1.999999998`, a value greater than 1; and
its value tends to that number (≈ 2, not 1) as the z statistic tends to 0,
so the returned two-sided p-values are not bounded above by 1. -/
theorem pValueFromZ_near_zero :
    (∀ z : ℝ, pValueFromZ (-z) = pValueFromZ z) ∧
    pValueFromZ 0 =
      2 * (0.254829592 + -0.284496736 + 1.421413741 + -1.453152027 + 1.061405429) ∧
    pValueFromZ 0 = 1.999999998 ∧
    1 < pValueFromZ 0 ∧
    Filter.Tendsto pValueFromZ (nhds 0) (nhds 1.999999998) := by
  refine ⟨?_, ?_, pValueFromZ_zero, ?_, ?_⟩
  · intro z
    simp only [pValueFromZ, abs_neg]
  · rw [pValueFromZ_zero]
    norm_num
  · rw [pValueFromZ_zero]
    norm_num
  · exact pValueFromZ_zero ▸ continuous_pValueFromZ.tendsto 0

/-- C8: `srmCheck` returns 1 when the total is 0 and `exp(−chiSquared/2)`
otherwise, with `chiSquared` the 1-df statistic against a 50/50 split; at
(520, 480) the statistic is 1.6 and the p-value `exp(−0.8)`, which
exceeds 0.01 (SRM ok). -/
theorem srmCheck_props :
    (∀ nControl nTreatment : ℚ, nControl + nTreatment = 0 →
      srmCheck nControl nTreatment = 1) ∧
    (∀ nControl nTreatment : ℚ, nControl + nTreatment ≠ 0 →
      srmCheck nControl nTreatment =
        Real.exp (-((srmChiSquared nControl nTreatment : ℚ) : ℝ) / 2)) ∧
    srmChiSquared 520 480 = 1.6 ∧
    srmCheck 520 480 = Real.exp (-0.8) ∧
    (1 / 100 : ℝ) < srmCheck 520 480 := by
  have hchi : srmChiSquared 520 480 = 1.6 := by
    norm_num [srmChiSquared]
  have hval : srmCheck 520 480 = Real.exp (-0.8) := by
    simp only [srmCheck]
    rw [if_neg (by norm_num : ¬((520 : ℚ) + 480 = 0)), hchi]
    norm_num
  refine ⟨?_, ?_, hchi, hval, ?_⟩
  · intro nC nT h
    simp only [srmCheck]
    rw [if_pos h]
  · intro nC nT h
    simp only [srmCheck]
    rw [if_neg h]
  · rw [hval]
    have h3 : Real.exp 1 < 3 := lt_trans Real.exp_one_lt_d9 (by norm_num)
    have hm1 : (1 / 3 : ℝ) < Real.exp (-1) := by
      rw [Real.exp_neg]
      rw [show (1 / 3 : ℝ) = 3⁻¹ by norm_num]
      exact inv_strictAnti₀ (Real.exp_pos 1) h3
    have hmono : Real.exp (-1) < Real.exp (-0.8) :=
      Real.exp_lt_exp.mpr (by norm_num)
    linarith

/-- Witness for C8: the theorem's two quantified clauses instantiated at
(0, 0) and (520, 480). -/
theorem srmCheck_props_witness :
    srmCheck 0 0 = 1 ∧
    srmCheck 520 480 = Real.exp (-((srmChiSquared 520 480 : ℚ) : ℝ) / 2) :=
  ⟨srmCheck_props.1 0 0 (by norm_num), srmCheck_props.2.1 520 480 (by norm_num)⟩

/-- C5: for every list of user records, each of the four group×period
summaries of `computeAggregatedMetrics` has totals equal to the exact sum
of the corresponding counters of the users of that arm, its rates are the
guarded ratios of its own totals, and the empty list yields the all-zero
record. -/
theorem aggregated_metrics_totals (users : List User) :
    (∀ g : Group, ∀ p : Period,
      (periodSummary (computeAggregatedMetrics users) g p).impressions =
        sumBy users g (fun u => impressionsIn u p) ∧
      (periodSummary (computeAggregatedMetrics users) g p).clicks =
        sumBy users g (fun u => clicksIn u p) ∧
      (periodSummary (computeAggregatedMetrics users) g p).metricSum =
        sumBy users g (fun u => metricSumIn u p) ∧
      (periodSummary (computeAggregatedMetrics users) g p).metricCount =
        sumBy users g (fun u => metricCountIn u p) ∧
      (periodSummary (computeAggregatedMetrics users) g p).ctr =
        (if 0 < (periodSummary (computeAggregatedMetrics users) g p).impressions then
          (periodSummary (computeAggregatedMetrics users) g p).clicks /
            (periodSummary (computeAggregatedMetrics users) g p).impressions
        else 0) ∧
      (periodSummary (computeAggregatedMetrics users) g p).metricMean =
        (if 0 < (periodSummary (computeAggregatedMetrics users) g p).metricCount then
          (periodSummary (computeAggregatedMetrics users) g p).metricSum /
            (periodSummary (computeAggregatedMetrics users) g p).metricCount
        else 0)) ∧
    computeAggregatedMetrics [] = initMetrics := by
  constructor
  · intro g p
    cases g <;> cases p <;>
      (unfold computeAggregatedMetrics
       rw [foldl_addUser_eq]
       simp [deriveRates, deriveRates1, periodSummary, initMetrics,
         impressionsIn, clicksIn, metricSumIn, metricCountIn])
  · decide

/-- C6 counterexample: a continuous-metric user with a counted event of
value 0 has post-period data (`postMetricCount = 1 ≠ 0`), so per the claim
they must contribute their per-user mean `0/1 = 0`; the code instead
drops them (`filter(v => v > 0)`), returning the empty list. -/
theorem getUserMetricValues_drops_zero_mean_user :
    userZeroSum.postMetricCount ≠ 0 ∧
    getUserMetricValues [userZeroSum] .post .control .revenue = [] ∧
    getUserMetricValues [userZeroSum] .post .control .revenue ≠
      [userZeroSum.postMetricSum / userZeroSum.postMetricCount] := by
  refine ⟨by norm_num [userZeroSum], ?_, ?_⟩ <;>
    (norm_num [getUserMetricValues, groupUsers, userZeroSum]; exact ⟨by decide, by decide⟩)

/-- C6 as amended: for proportion kinds the extraction returns one value
per user of the group (the guarded clicks/impressions ratio, 0 for users
with no impressions); for continuous kinds it returns the guarded
sum/count means filtered to the strictly positive values — so every user
whose per-period mean is not positive is excluded (zero-count users, but
also users whose events sum to 0 or a negative value). -/
theorem getUserMetricValues_spec (users : List User) (period : Period) (group : Group) :
    (∀ metricType : MetricType, metricType = .ctr ∨ metricType = .conversion →
      getUserMetricValues users period group metricType =
        (groupUsers users group).map (fun u =>
          if 0 < impressionsIn u period then clicksIn u period / impressionsIn u period
          else 0)) ∧
    (∀ metricType : MetricType, metricType = .revenue ∨ metricType = .duration →
      getUserMetricValues users period group metricType =
        ((groupUsers users group).map (fun u =>
          if 0 < metricCountIn u period then metricSumIn u period / metricCountIn u period
          else 0)).filter (fun v => decide (0 < v))) := by
  constructor
  · rintro mt (rfl | rfl) <;>
      (simp only [getUserMetricValues]
       rw [if_pos (by simp)]
       rw [filter_or_true]
       cases period <;> rfl)
  · rintro mt (rfl | rfl) <;>
      (simp only [getUserMetricValues]
       rw [if_neg (by simp)]
       cases period <;> rfl)

/-- Witness for C6's amended theorem: both quantified clauses
instantiated, at `ctr` and `revenue`, on a one-user list. -/
theorem getUserMetricValues_spec_witness :
    getUserMetricValues [userZeroSum] .post .control .ctr =
      (groupUsers [userZeroSum] .control).map (fun u =>
        if 0 < impressionsIn u .post then clicksIn u .post / impressionsIn u .post
        else 0) ∧
    getUserMetricValues [userZeroSum] .post .control .revenue =
      ((groupUsers [userZeroSum] .control).map (fun u =>
        if 0 < metricCountIn u .post then metricSumIn u .post / metricCountIn u .post
        else 0)).filter (fun v => decide (0 < v)) :=
  ⟨(getUserMetricValues_spec [userZeroSum] .post .control).1 .ctr (Or.inl rfl),
   (getUserMetricValues_spec [userZeroSum] .post .control).2 .revenue (Or.inl rfl)⟩

/-- C3 counterexample: twelve qualifying users with all pre-period ratios
equal (so theta is forced to 0), on which the CUPED estimate — the
difference of the qualifying users' per-user post-ratio means, −1/6 —
differs from the `naiveABTest` estimate on the aggregated metrics of the
same users, which is the difference of pooled post CTRs, −1/16. -/
theorem cuped_estimate_ne_naive_estimate :
    10 ≤ (extractUserMetrics userList12 MetricType.ctr).length ∧
    (extractUserMetrics userList12 MetricType.ctr).map (fun u => u.preMetric) =
      [0, 0, 0, 0, 0, 0, 0, 0, 0, 0, 0, 0] ∧
    (computeCUPED userList12 MetricType.ctr).estimate ≠
      (naiveABTest (computeAggregatedMetrics userList12) MetricType.ctr none).estimate := by
  have h1 : (computeCUPED userList12 MetricType.ctr).estimate = -(1/6) := by
    norm_num [computeCUPED, extractUserMetrics, userList12, userC1, userC0, userT0,
      mean, variance, covariance, METRIC_CONFIGS]
  have h2 : (naiveABTest (computeAggregatedMetrics userList12) MetricType.ctr none).estimate
      = -(1/16) := by
    norm_num [naiveABTest, computeAggregatedMetrics, addUser, addUserCounters,
      deriveRates, deriveRates1, initMetrics, userList12, userC1, userC0, userT0,
      METRIC_CONFIGS]
  refine ⟨by decide, ?_, ?_⟩
  · norm_num [extractUserMetrics, userList12, userC1, userC0, userT0, METRIC_CONFIGS]
  · rw [h1, h2]
    norm_num

/-- C3 as amended: with at least 10 qualifying users and a constant
pre-period metric, `computeCUPED` forces theta to 0 and its estimate is
the naive difference of the *qualifying users'* per-user post means
(treatment mean minus control mean of the unadjusted post values) —
which is not, in general, the `naiveABTest` estimate on the aggregated
totals. -/
theorem cuped_zero_pre_variance (users : List User) (metricType : MetricType) (c : ℚ)
    (h10 : ¬(extractUserMetrics users metricType).length < 10)
    (hpre : ∀ u ∈ extractUserMetrics users metricType, u.preMetric = c) :
    (computeCUPED users metricType).theta = 0 ∧
    (computeCUPED users metricType).estimate =
      mean (((extractUserMetrics users metricType).filter
        (fun u => u.group == Group.treatment)).map (fun u => u.postMetric)) -
      mean (((extractUserMetrics users metricType).filter
        (fun u => u.group == Group.control)).map (fun u => u.postMetric)) := by
  have hvar : variance ((extractUserMetrics users metricType).map (fun u => u.preMetric)) = 0 :=
    variance_eq_zero_of_const _ c (by
      intro x hx
      rcases List.mem_map.mp hx with ⟨u, hu, rfl⟩
      exact hpre u hu)
  refine ⟨?_, ?_⟩ <;>
    (simp only [computeCUPED]
     rw [if_neg h10]
     simp [hvar])

/-- Witness for the amended C3 at the twelve-user list with constant
(zero) pre ratios. -/
theorem cuped_zero_pre_variance_witness :
    (computeCUPED userList12 MetricType.ctr).theta = 0 ∧
    (computeCUPED userList12 MetricType.ctr).estimate =
      mean (((extractUserMetrics userList12 MetricType.ctr).filter
        (fun u => u.group == Group.treatment)).map (fun u => u.postMetric)) -
      mean (((extractUserMetrics userList12 MetricType.ctr).filter
        (fun u => u.group == Group.control)).map (fun u => u.postMetric)) :=
  cuped_zero_pre_variance userList12 MetricType.ctr 0 (by decide)
    (by norm_num [extractUserMetrics, userList12, userC1, userC0, userT0, METRIC_CONFIGS])

/-- C4 counterexample: ten qualifying users all in the treatment arm —
an "empty arm" degenerate input in the claim's own list — on which
`computeCUPED` returns estimate 1, not the claimed zero-effect result
(and its standard-error expression `1/control.length` is an unguarded
division in the source). -/
theorem cuped_empty_arm_nonzero_estimate :
    10 ≤ (extractUserMetrics userList10 MetricType.ctr).length ∧
    ((extractUserMetrics userList10 MetricType.ctr).filter
      (fun u => u.group == Group.control)).length = 0 ∧
    (computeCUPED userList10 MetricType.ctr).estimate ≠ 0 := by
  have h : (computeCUPED userList10 MetricType.ctr).estimate = 1 := by
    norm_num [computeCUPED, extractUserMetrics, userList10, userT1,
      mean, variance, covariance, METRIC_CONFIGS]
  refine ⟨by decide, by decide, ?_⟩
  rw [h]
  norm_num

/-- C4 as amended: the estimators never raise (every definition above is
total); on the all-zero degenerate input the naive test, relative lift,
baseline check and DiD all return zero-effect, non-significant results,
`srmCheck` of two zero counts is 1, and `computeCUPED` under its
small-sample guard is neutral — but `computeCUPED` above the guard with
an empty arm is *not* zero-effect (the counterexample), and its per-arm
`1/length` division is the one unguarded division. -/
theorem estimators_degenerate_neutral :
    (∀ metricType : MetricType,
      (naiveABTest initMetrics metricType none).estimate = 0 ∧
      (naiveABTest initMetrics metricType none).significant = false ∧
      (computeRelativeLift initMetrics metricType none).lift = 0 ∧
      (computeRelativeLift initMetrics metricType none).liftCI = (0, 0) ∧
      (checkBaselineImbalance initMetrics metricType).preDifference = 0 ∧
      (checkBaselineImbalance initMetrics metricType).imbalanceDetected = false ∧
      (computeDiD initMetrics metricType).estimate = 0 ∧
      (computeDiD initMetrics metricType).significant = false) ∧
    srmCheck 0 0 = 1 ∧
    (∀ (users : List User) (metricType : MetricType),
      (extractUserMetrics users metricType).length < 10 →
      (computeCUPED users metricType).estimate = 0 ∧
      (computeCUPED users metricType).significant = false) := by
  have hdpse : diffProportionSE 0 0 0 0 = 0 := by
    norm_num [diffProportionSE, proportionSE, Real.sqrt_zero]
  have hdmse : diffMeanSE 0 0 0 0 0 0 = 0 := by
    norm_num [diffMeanSE, Real.sqrt_zero]
  have hwdf : welchDF 0 0 0 0 = 0 := by
    norm_num [welchDF]
  have hpt : pValueFromT 0 0 = pValueFromZ 0 := by
    norm_num [pValueFromT, Real.sqrt_zero]
  have hp05 : (1 / 20 : ℝ) ≤ pValueFromZ 0 := by
    rw [pValueFromZ_zero]
    norm_num
  have hp10 : (1 / 10 : ℝ) ≤ pValueFromZ 0 := by
    rw [pValueFromZ_zero]
    norm_num
  refine ⟨?_, by norm_num [srmCheck], ?_⟩
  · intro metricType
    cases metricType <;>
      (and_intros <;>
        norm_num [naiveABTest, computeRelativeLift, checkBaselineImbalance,
          computeDiD, getMetricValue, orOne, initMetrics, METRIC_CONFIGS,
          hdpse, hdmse, hwdf, hpt, hp05, hp10, zScore, tScore,
          Real.sqrt_zero, decide_eq_false_iff_not])
  · intro users metricType h
    simp only [computeCUPED]
    rw [if_pos h]
    exact ⟨rfl, rfl⟩

/-- Witness for the amended C4: the all-metric clause at `revenue` and
the CUPED guard clause at the empty list. -/
theorem estimators_degenerate_neutral_witness :
    (naiveABTest initMetrics MetricType.revenue none).estimate = 0 ∧
    (computeCUPED [] MetricType.conversion).estimate = 0 :=
  ⟨(estimators_degenerate_neutral.1 MetricType.revenue).1,
   (estimators_degenerate_neutral.2.2 [] MetricType.conversion (by decide)).1⟩

/-- C7 as amended: for proportion metric kinds, `checkBaselineImbalance`
is exactly `naiveABTest`'s math applied to the pre-period summaries
(substituted in place of post), and it flags imbalance exactly when that
p-value is below 0.10.  (For continuous kinds the two diverge: the
baseline check runs a z-test where `naiveABTest` runs a Welch t-test; see
the counterexample.) -/
theorem baseline_imbalance_eq_naive_on_pre (m : AggregatedMetrics) (metricType : MetricType)
    (h : (METRIC_CONFIGS metricType).isContinuous = false) :
    checkBaselineImbalance m metricType =
      { imbalanceDetected := decide ((naiveABTest (prePosted m) metricType none).pValue < 0.1)
        preDifference := (naiveABTest (prePosted m) metricType none).estimate
        pValue := (naiveABTest (prePosted m) metricType none).pValue } := by
  cases metricType with
  | ctr => rfl
  | conversion => rfl
  | revenue => exact Bool.noConfusion h
  | duration => exact Bool.noConfusion h

/-- Witness for the amended C7 at the all-zero input and kind `ctr`. -/
theorem baseline_imbalance_eq_naive_on_pre_witness :
    checkBaselineImbalance initMetrics MetricType.ctr =
      { imbalanceDetected :=
          decide ((naiveABTest (prePosted initMetrics) MetricType.ctr none).pValue < 0.1)
        preDifference := (naiveABTest (prePosted initMetrics) MetricType.ctr none).estimate
        pValue := (naiveABTest (prePosted initMetrics) MetricType.ctr none).pValue } :=
  baseline_imbalance_eq_naive_on_pre initMetrics MetricType.ctr rfl

/-- C7 counterexample: on a concrete continuous-metric input the baseline
check's p-value (a z-test at z = 2, which is below 1) differs from the
p-value `naiveABTest` produces on the same pre-period summaries (a t-test
whose degenerate Welch df drives the modelled approximation to its value
at 0, which is above 1). -/
theorem baseline_imbalance_continuous_ne :
    (checkBaselineImbalance contMetrics MetricType.revenue).pValue ≠
      (naiveABTest (prePosted contMetrics) MetricType.revenue none).pValue := by
  have hse : diffMeanSE (3/2) (3/4) 1 (7/2) (7/4) 7 = 1 := by
    rw [diffMeanSE]
    norm_num [Real.sqrt_one]
  have hwdf : welchDF (3/4) 1 (7/4) 7 = 0 := by
    norm_num [welchDF]
  have hL : (checkBaselineImbalance contMetrics MetricType.revenue).pValue = pValueFromZ 2 := by
    simp only [checkBaselineImbalance, contMetrics, METRIC_CONFIGS]
    norm_num [hse, zScore]
  have hR : (naiveABTest (prePosted contMetrics) MetricType.revenue none).pValue
      = pValueFromZ 0 := by
    simp only [naiveABTest, prePosted, contMetrics, METRIC_CONFIGS]
    norm_num [hse, hwdf, tScore, pValueFromT, Real.sqrt_zero]
  rw [hL, hR, pValueFromZ_zero]
  exact ne_of_lt (lt_trans pValueFromZ_two_lt_one (by norm_num))

end DataLearningLab
